import Mathlib

/-!
# VulkanApp: selection logic and set-up sequence of `VulkanRenderer`

A shallow embedding of `src/VulkanApp/VulkanRenderer.cpp`, `Utilities.h` and
`main.cpp`.  Handles and enumerations of the graphics API are natural numbers;
`uint32_t` values are natural numbers, reduced modulo `2^32` where the source
can wrap.  What the host API answers to a query is an input of the model.
-/

set_option autoImplicit false

namespace VulkanApp

/-! ## Constants of the graphics API headers used by the source -/

/-- The value of `std::numeric_limits<uint32_t>::max()`. -/
def UINT32_MAX : Nat := 4294967295

/-- The enumerator `VK_FORMAT_UNDEFINED` of `VkFormat`. -/
def VK_FORMAT_UNDEFINED : Nat := 0

/-- The enumerator `VK_FORMAT_R8G8B8A8_UNORM` of `VkFormat`. -/
def VK_FORMAT_R8G8B8A8_UNORM : Nat := 37

/-- The enumerator `VK_FORMAT_B8G8R8A8_UNORM` of `VkFormat`. -/
def VK_FORMAT_B8G8R8A8_UNORM : Nat := 44

/-- The enumerator `VK_COLOR_SPACE_SRGB_NONLINEAR_KHR` of `VkColorSpaceKHR`. -/
def VK_COLOR_SPACE_SRGB_NONLINEAR_KHR : Nat := 0

/-- The enumerator `VK_PRESENT_MODE_MAILBOX_KHR` of `VkPresentModeKHR`. -/
def VK_PRESENT_MODE_MAILBOX_KHR : Nat := 1

/-- The enumerator `VK_PRESENT_MODE_FIFO_KHR` of `VkPresentModeKHR`. -/
def VK_PRESENT_MODE_FIFO_KHR : Nat := 2

/-- The flag `VK_QUEUE_GRAPHICS_BIT` of `VkQueueFlagBits`. -/
def VK_QUEUE_GRAPHICS_BIT : Nat := 1

/-- The string `VK_KHR_SWAPCHAIN_EXTENSION_NAME`. -/
def VK_KHR_SWAPCHAIN_EXTENSION_NAME : String := "VK_KHR_swapchain"

/-- The process status `EXIT_FAILURE` of `<cstdlib>`. -/
def EXIT_FAILURE : Int := 1

/-! ## Records of the graphics API read by the source -/

/-- The record `VkSurfaceFormatKHR`: a pixel format and a colour space. -/
structure VkSurfaceFormatKHR where
  format : Nat
  colorSpace : Nat
  deriving DecidableEq, Repr

/-- The record `VkExtent2D`. -/
structure VkExtent2D where
  width : Nat
  height : Nat
  deriving DecidableEq, Repr

/-- The fields of `VkSurfaceCapabilitiesKHR` the source reads. -/
structure VkSurfaceCapabilitiesKHR where
  minImageCount : Nat
  maxImageCount : Nat
  currentExtent : VkExtent2D
  minImageExtent : VkExtent2D
  maxImageExtent : VkExtent2D
  deriving DecidableEq, Repr

/-- The fields of `VkQueueFamilyProperties` the source reads. -/
structure VkQueueFamilyProperties where
  queueFlags : Nat
  queueCount : Nat
  deriving DecidableEq, Repr

/-! ## `Utilities.h` -/

/-- The list `device_extensions` of `Utilities.h`. -/
def device_extensions : List String := [VK_KHR_SWAPCHAIN_EXTENSION_NAME]

/-- The struct `QueueFamilyIndices`: two optional family indices. -/
structure QueueFamilyIndices where
  graphics_family : Option Nat
  presentation_family : Option Nat
  deriving DecidableEq, Repr

/-- The method `QueueFamilyIndices::IsComplete`. -/
def QueueFamilyIndices.IsComplete (q : QueueFamilyIndices) : Bool :=
  q.graphics_family.isSome && q.presentation_family.isSome

/-- The struct `SwapChainDetails`. -/
structure SwapChainDetails where
  surface_capabilities : VkSurfaceCapabilitiesKHR
  formats : List VkSurfaceFormatKHR
  presentation_modes : List Nat
  deriving DecidableEq, Repr

/-! ## Surface format, present mode, extent and image count -/

/-- The loop of `ChooseBestSurfaceFormat`: the first entry that is RGBA or
BGRA in the sRGB nonlinear colour space. -/
def ChooseBestSurfaceFormat.scan : List VkSurfaceFormatKHR → Option VkSurfaceFormatKHR
  | [] => none
  | format :: rest =>
    if (format.format = VK_FORMAT_R8G8B8A8_UNORM ∨ format.format = VK_FORMAT_B8G8R8A8_UNORM) ∧
        format.colorSpace = VK_COLOR_SPACE_SRGB_NONLINEAR_KHR then
      some format
    else ChooseBestSurfaceFormat.scan rest

/-- The function `VulkanRenderer::ChooseBestSurfaceFormat`.  The result is
`none` where the source reads `formats[0]` of an empty vector. -/
def ChooseBestSurfaceFormat (formats : List VkSurfaceFormatKHR) : Option VkSurfaceFormatKHR :=
  if formats.length = 1 ∧ (formats.head?.map fun f => f.format) = some VK_FORMAT_UNDEFINED then
    some ⟨VK_FORMAT_R8G8B8A8_UNORM, VK_COLOR_SPACE_SRGB_NONLINEAR_KHR⟩
  else
    match ChooseBestSurfaceFormat.scan formats with
    | some format => some format
    | none => formats.head?

/-- The function `VulkanRenderer::ChooseBestPresentationMode`. -/
def ChooseBestPresentationMode : List Nat → Nat
  | [] => VK_PRESENT_MODE_FIFO_KHR
  | presentation_mode :: rest =>
    if presentation_mode = VK_PRESENT_MODE_MAILBOX_KHR then presentation_mode
    else ChooseBestPresentationMode rest

/-- The conversion `static_cast<uint32_t>` of an `int`. -/
def static_cast_uint32 (x : Int) : Nat := (x % 4294967296).toNat

/-- The function `VulkanRenderer::ChooseSwapExtent`; `width` and `height` are
what `glfwGetFramebufferSize` stores for the window. -/
def ChooseSwapExtent (surface_capabilities : VkSurfaceCapabilitiesKHR)
    (width height : Int) : VkExtent2D :=
  if surface_capabilities.currentExtent.width ≠ UINT32_MAX then
    surface_capabilities.currentExtent
  else
    let new_extent : VkExtent2D := ⟨static_cast_uint32 width, static_cast_uint32 height⟩
    { width := max surface_capabilities.minImageExtent.width
        (min surface_capabilities.maxImageExtent.width new_extent.width)
      height := max surface_capabilities.minImageExtent.height
        (min surface_capabilities.maxImageExtent.height new_extent.height) }

/-- The image count computed by `VulkanRenderer::CreateSwapChain` and stored
in `swapchain_create_info.minImageCount`. -/
def CreateSwapChain.image_count (surface_capabilities : VkSurfaceCapabilitiesKHR) : Nat :=
  let image_count := (surface_capabilities.minImageCount + 1) % 4294967296
  if surface_capabilities.maxImageCount > 0 ∧ surface_capabilities.maxImageCount < image_count then
    surface_capabilities.maxImageCount
  else image_count

/-! ## Physical devices -/

/-- A physical device handle together with what the host API answers when the
source queries it for the created surface. -/
structure VkPhysicalDevice where
  /-- The handle value. -/
  handle : Nat
  /-- What `vkEnumerateDeviceExtensionProperties` lists: the extension names. -/
  extensions : List String
  /-- What `vkGetPhysicalDeviceQueueFamilyProperties` lists. -/
  queue_family_list : List VkQueueFamilyProperties
  /-- The `VkBool32` that `vkGetPhysicalDeviceSurfaceSupportKHR` stores for a
  family index. -/
  presentation_support : Nat → Nat
  /-- What `vkGetPhysicalDeviceSurfaceCapabilitiesKHR` stores. -/
  surface_capabilities : VkSurfaceCapabilitiesKHR
  /-- What `vkGetPhysicalDeviceSurfaceFormatsKHR` lists. -/
  surface_formats : List VkSurfaceFormatKHR
  /-- What `vkGetPhysicalDeviceSurfacePresentModesKHR` lists. -/
  surface_present_modes : List Nat

/-- The loop of `GetQueueFamilies` from family index `i` on, with the indices
found so far. -/
def GetQueueFamilies.loop (device : VkPhysicalDevice) :
    List VkQueueFamilyProperties → Nat → QueueFamilyIndices → QueueFamilyIndices
  | [], _, indices => indices
  | queue_family :: rest, i, indices =>
    let indices : QueueFamilyIndices :=
      if queue_family.queueCount > 0 ∧ queue_family.queueFlags &&& VK_QUEUE_GRAPHICS_BIT ≠ 0 then
        { indices with graphics_family := some i }
      else indices
    let presentation_support := device.presentation_support i
    let indices : QueueFamilyIndices :=
      if queue_family.queueCount > 0 ∧ presentation_support ≠ 0 then
        { indices with presentation_family := some i }
      else indices
    if indices.IsComplete then indices
    else GetQueueFamilies.loop device rest (i + 1) indices

/-- The function `VulkanRenderer::GetQueueFamilies`. -/
def GetQueueFamilies (device : VkPhysicalDevice) : QueueFamilyIndices :=
  GetQueueFamilies.loop device device.queue_family_list 0 ⟨none, none⟩

/-- The inner loop of `CheckDeviceExtensionSupport`: whether some listed
extension has the name `device_extension` (`strcmp` returns 0). -/
def CheckDeviceExtensionSupport.has_extension (device_extension : String) : List String → Bool
  | [] => false
  | extension :: rest =>
    if device_extension = extension then true
    else CheckDeviceExtensionSupport.has_extension device_extension rest

/-- The outer loop of `CheckDeviceExtensionSupport` over the required names. -/
def CheckDeviceExtensionSupport.loop (extensions : List String) : List String → Bool
  | [] => true
  | device_extension :: rest =>
    if !CheckDeviceExtensionSupport.has_extension device_extension extensions then false
    else CheckDeviceExtensionSupport.loop extensions rest

/-- The function `VulkanRenderer::CheckDeviceExtensionSupport`. -/
def CheckDeviceExtensionSupport (device : VkPhysicalDevice) : Bool :=
  let extension_count := device.extensions.length
  if extension_count = 0 then false
  else CheckDeviceExtensionSupport.loop device.extensions device_extensions

/-- The function `VulkanRenderer::GetSwapChainDetails`. -/
def GetSwapChainDetails (device : VkPhysicalDevice) : SwapChainDetails :=
  let format_count := device.surface_formats.length
  let presentation_count := device.surface_present_modes.length
  { surface_capabilities := device.surface_capabilities
    formats := if format_count ≠ 0 then device.surface_formats else []
    presentation_modes := if presentation_count ≠ 0 then device.surface_present_modes else [] }

/-- The function `VulkanRenderer::CheckDeviceSuitable`. -/
def CheckDeviceSuitable (device : VkPhysicalDevice) : Bool :=
  let extension_support := CheckDeviceExtensionSupport device
  let queue_families_complete := (GetQueueFamilies device).IsComplete
  let swapchain_valid :=
    if extension_support then
      let swapchain_details := GetSwapChainDetails device
      !swapchain_details.formats.isEmpty && !swapchain_details.presentation_modes.isEmpty
    else false
  queue_families_complete && extension_support && swapchain_valid

/-- The loop of `GetPhysicalDevice`: the stored handle after the scan, which
starts from `physical_device`. -/
def GetPhysicalDevice.loop :
    List VkPhysicalDevice → Option VkPhysicalDevice → Option VkPhysicalDevice
  | [], physical_device => physical_device
  | device :: rest, physical_device =>
    if CheckDeviceSuitable device then some device
    else GetPhysicalDevice.loop rest physical_device

/-- The function `VulkanRenderer::GetPhysicalDevice` on the member
`devices.physical_device` (`none` while it has never been assigned);
`device_list` is what `vkEnumeratePhysicalDevices` lists.  An error is the
message of the `std::runtime_error` thrown. -/
def GetPhysicalDevice (device_list : List VkPhysicalDevice)
    (physical_device : Option VkPhysicalDevice) : Except String (Option VkPhysicalDevice) :=
  let device_count := device_list.length
  if device_count = 0 then
    .error "Can't find GPUs that support Vulkan instance"
  else
    .ok (GetPhysicalDevice.loop device_list physical_device)

/-! ## Set-up sequence: `Init`, `Update`, `Clean` and `main` -/

/-- The ways a routine can end other than by returning: the
`std::runtime_error` of a `throw` statement of the source, the
`std::bad_optional_access` of `std::optional::value`, or behaviour the
language leaves undefined. -/
inductive Abnormal where
  | runtime_error (what : String)
  | bad_optional_access
  | undefined_behaviour
  deriving DecidableEq, Repr

/-- How a routine working on a state of type `σ` ends: the state it leaves
behind, and how it ended when it did not return. -/
structure Outcome (σ : Type) where
  state : σ
  thrown : Option Abnormal

/-- Sequencing of two statements: the second runs when the first returned. -/
def Outcome.andThen {σ : Type} (o : Outcome σ) (f : σ → Outcome σ) : Outcome σ :=
  match o.thrown with
  | none => f o.state
  | some _ => o

/-- The seven routines called in the `try` block of `Init`. -/
structure SetupSteps (σ : Type) where
  CreateInstance : σ → Outcome σ
  SetupDebugMessenger : σ → Outcome σ
  CreateSurface : σ → Outcome σ
  GetPhysicalDevice : σ → Outcome σ
  CreateLogicalDevice : σ → Outcome σ
  CreateSwapChain : σ → Outcome σ
  CreateGraphicsPipiline : σ → Outcome σ

/-- The function `VulkanRenderer::Init`; `open_window` stands for the window
calls made before the `try` block.  The status is `none` when an exception
that the `catch` clause does not handle leaves `Init`. -/
def Init {σ : Type} (steps : SetupSteps σ) (open_window : σ → σ) (s : σ) : σ × Option Int :=
  let s := open_window s
  let o := ((((((steps.CreateInstance s).andThen
    steps.SetupDebugMessenger).andThen
    steps.CreateSurface).andThen
    steps.GetPhysicalDevice).andThen
    steps.CreateLogicalDevice).andThen
    steps.CreateSwapChain).andThen
    steps.CreateGraphicsPipiline
  match o.thrown with
  | none => (o.state, some 0)
  | some (.runtime_error _) => (o.state, some EXIT_FAILURE)
  | some _ => (o.state, none)

/-- The routines `main` calls on the renderer: the set-up steps and window
calls of `Init`, `Update` (`none` when its loop never ends), `Clean`, and the
destructor run when `main` returns. -/
structure Program (σ : Type) where
  steps : SetupSteps σ
  open_window : σ → σ
  Update : σ → Option σ
  Clean : σ → σ
  destructor : σ → σ

/-- The function `main` of `main.cpp` from the freshly constructed renderer
`s`; the status is `none` when `main` does not return. -/
def main {σ : Type} (p : Program σ) (s : σ) : σ × Option Int :=
  match Init p.steps p.open_window s with
  | (s, none) => (s, none)
  | (s, some status) =>
    if status = EXIT_FAILURE then (p.destructor s, some EXIT_FAILURE)
    else
      match p.Update s with
      | none => (s, none)
      | some s => (p.destructor (p.Clean s), some 0)

/-- The result code `VK_SUCCESS` of `VkResult`. -/
def VK_SUCCESS : Int := 0

/-- The result code `VK_ERROR_EXTENSION_NOT_PRESENT` of `VkResult`. -/
def VK_ERROR_EXTENSION_NOT_PRESENT : Int := -7

/-- The string `VK_EXT_DEBUG_UTILS_EXTENSION_NAME`. -/
def VK_EXT_DEBUG_UTILS_EXTENSION_NAME : String := "VK_EXT_debug_utils"

/-- The list `required_validation_layers` of `VulkanRenderer.cpp`. -/
def required_validation_layers : List String := ["VK_LAYER_KHRONOS_validation"]

/-- The objects the renderer creates and destroys through the host API.
Image views and shader modules are numbered in the order of their creation. -/
inductive Resource where
  | window
  | vk_instance
  | debug_messenger
  | surface
  | logical_device
  | swapchain
  | image_view (i : Nat)
  | shader_module (i : Nat)
  deriving DecidableEq, Repr

/-- A call of the host API that creates or destroys an object. -/
inductive Call where
  | create (r : Resource)
  | destroy (r : Resource)
  deriving DecidableEq, Repr

/-- The struct `SwapchainImage`: an image handle and the view created on it. -/
structure SwapchainImage where
  image : Nat
  image_view : Nat
  deriving DecidableEq, Repr

/-- The members of `VulkanRenderer` the set-up sequence reads back, and the
creating and destroying calls made so far, oldest first. -/
structure VulkanRenderer where
  physical_device : Option VkPhysicalDevice
  swapchain_images : List SwapchainImage
  swapchain_image_format : Option Nat
  swapchain_extent : Option VkExtent2D
  calls : List Call

/-- The renderer as `main` constructs it: no member assigned, an empty
`swapchain_images` vector, no call made. -/
def VulkanRenderer.fresh : VulkanRenderer :=
  { physical_device := none, swapchain_images := [], swapchain_image_format := none,
    swapchain_extent := none, calls := [] }

/-- What the build and the host answer during one run of the program. -/
structure Host where
  /-- The constant `enable_validation_layers`: true unless `NDEBUG` is defined. -/
  enable_validation_layers : Bool
  /-- The layer names `vkEnumerateInstanceLayerProperties` lists. -/
  available_layers : List String
  /-- The names `glfwGetRequiredInstanceExtensions` returns. -/
  glfw_extensions : List String
  /-- The extension names `vkEnumerateInstanceExtensionProperties` lists. -/
  instance_extensions : List String
  /-- The result of `vkCreateInstance`. -/
  vkCreateInstance : Int
  /-- Whether `vkGetInstanceProcAddr` returns a non-null pointer for a name. -/
  vkGetInstanceProcAddr : String → Bool
  /-- The result of the loaded `vkCreateDebugUtilsMessengerEXT`. -/
  vkCreateDebugUtilsMessengerEXT : Int
  /-- The result of `glfwCreateWindowSurface`. -/
  glfwCreateWindowSurface : Int
  /-- The devices `vkEnumeratePhysicalDevices` lists. -/
  device_list : List VkPhysicalDevice
  /-- The result of `vkCreateDevice`. -/
  vkCreateDevice : Int
  /-- The framebuffer size `glfwGetFramebufferSize` stores. -/
  framebuffer_width : Int
  framebuffer_height : Int
  /-- The result of `vkCreateSwapchainKHR`. -/
  vkCreateSwapchainKHR : Int
  /-- The image handles `vkGetSwapchainImagesKHR` lists. -/
  swapchain_images : List Nat
  /-- The result of `vkCreateImageView` for an image handle. -/
  vkCreateImageView : Nat → Int
  /-- Whether the file of a given name can be opened. -/
  file_opens : String → Bool
  /-- The result of the `i`-th call of `vkCreateShaderModule`. -/
  vkCreateShaderModule : Nat → Int
  /-- The number of event polls after which the window is closed, if ever. -/
  window_closed_after : Option Nat

/-- Appends a call to the record of calls. -/
def VulkanRenderer.call (r : VulkanRenderer) (c : Call) : VulkanRenderer :=
  { r with calls := r.calls ++ [c] }

/-- A `throw std::runtime_error(what)` statement. -/
def throw_runtime_error (r : VulkanRenderer) (what : String) : Outcome VulkanRenderer :=
  ⟨r, some (.runtime_error what)⟩

/-- The function `VulkanRenderer::CheckValidationLayerSupport`: every required
layer is among the listed ones. -/
def CheckValidationLayerSupport (host : Host) : Bool :=
  CheckDeviceExtensionSupport.loop host.available_layers required_validation_layers

/-- The function `VulkanRenderer::CheckInstanceExtensionSupport`: every name
of `check_extensions` is among the listed instance extensions. -/
def CheckInstanceExtensionSupport (host : Host) (check_extensions : List String) : Bool :=
  CheckDeviceExtensionSupport.loop host.instance_extensions check_extensions

/-- The function `VulkanRenderer::CreateInstance`. -/
def CreateInstance (host : Host) (r : VulkanRenderer) : Outcome VulkanRenderer :=
  if host.enable_validation_layers && !CheckValidationLayerSupport host then
    throw_runtime_error r "Validation layers requested, but not available"
  else
    let extensions := host.glfw_extensions
    let extensions :=
      if host.enable_validation_layers then extensions ++ [VK_EXT_DEBUG_UTILS_EXTENSION_NAME]
      else extensions
    if !CheckInstanceExtensionSupport host extensions then
      throw_runtime_error r "VKInstance does not support required extensions"
    else if host.vkCreateInstance ≠ VK_SUCCESS then
      throw_runtime_error r "Failed to create a vulkan instance"
    else ⟨r.call (.create .vk_instance), none⟩

/-- The function `CreateDebugUtilsMessengerEXT`: its result code. -/
def CreateDebugUtilsMessengerEXT (host : Host) : Int :=
  if host.vkGetInstanceProcAddr "vkCreateDebugUtilsMessengerEXT" then
    host.vkCreateDebugUtilsMessengerEXT
  else VK_ERROR_EXTENSION_NOT_PRESENT

/-- The function `VulkanRenderer::SetupDebugMessenger`. -/
def SetupDebugMessenger (host : Host) (r : VulkanRenderer) : Outcome VulkanRenderer :=
  if !host.enable_validation_layers then ⟨r, none⟩
  else if CreateDebugUtilsMessengerEXT host ≠ VK_SUCCESS then
    throw_runtime_error r "failed to set up debug messenger"
  else ⟨r.call (.create .debug_messenger), none⟩

/-- The function `VulkanRenderer::CreateSurface`. -/
def CreateSurface (host : Host) (r : VulkanRenderer) : Outcome VulkanRenderer :=
  if host.glfwCreateWindowSurface ≠ VK_SUCCESS then
    throw_runtime_error r "Failed to create a surface"
  else ⟨r.call (.create .surface), none⟩

/-- The step `GetPhysicalDevice()` of `Init`, on the renderer. -/
def VulkanRenderer.GetPhysicalDevice (host : Host) (r : VulkanRenderer) :
    Outcome VulkanRenderer :=
  match VulkanApp.GetPhysicalDevice host.device_list r.physical_device with
  | .error what => throw_runtime_error r what
  | .ok physical_device => ⟨{ r with physical_device := physical_device }, none⟩

/-- The function `VulkanRenderer::CreateLogicalDevice`, as far as it creates
objects and can fail. -/
def CreateLogicalDevice (host : Host) (r : VulkanRenderer) : Outcome VulkanRenderer :=
  match r.physical_device with
  | none => ⟨r, some .undefined_behaviour⟩
  | some physical_device =>
    let indices := GetQueueFamilies physical_device
    match indices.graphics_family, indices.presentation_family with
    | some _, some _ =>
      if host.vkCreateDevice ≠ VK_SUCCESS then
        throw_runtime_error r "Failed to create a logical device"
      else ⟨r.call (.create .logical_device), none⟩
    | _, _ => ⟨r, some .bad_optional_access⟩

/-- The loop of `CreateSwapChain` over the swapchain images, with
`CreateImageView` inlined: the new view is numbered by the count of images
stored before it. -/
def CreateSwapChain.images (host : Host) : List Nat → VulkanRenderer → Outcome VulkanRenderer
  | [], r => ⟨r, none⟩
  | image :: rest, r =>
    if host.vkCreateImageView image ≠ VK_SUCCESS then
      throw_runtime_error r "Failed to create an image view"
    else
      let image_view := r.swapchain_images.length
      let r := r.call (.create (.image_view image_view))
      let r := { r with swapchain_images := r.swapchain_images ++ [⟨image, image_view⟩] }
      CreateSwapChain.images host rest r

/-- The function `VulkanRenderer::CreateSwapChain`, as far as it creates
objects and can fail. -/
def CreateSwapChain (host : Host) (r : VulkanRenderer) : Outcome VulkanRenderer :=
  match r.physical_device with
  | none => ⟨r, some .undefined_behaviour⟩
  | some physical_device =>
    let swapchain_details := GetSwapChainDetails physical_device
    match ChooseBestSurfaceFormat swapchain_details.formats with
    | none => ⟨r, some .undefined_behaviour⟩
    | some surface_format =>
      let extent := ChooseSwapExtent swapchain_details.surface_capabilities
        host.framebuffer_width host.framebuffer_height
      let indices := GetQueueFamilies physical_device
      if indices.graphics_family ≠ indices.presentation_family ∧ !indices.IsComplete then
        ⟨r, some .bad_optional_access⟩
      else if host.vkCreateSwapchainKHR ≠ VK_SUCCESS then
        throw_runtime_error r "Failed to create swapchain"
      else
        let r := r.call (.create .swapchain)
        let r := { r with swapchain_image_format := some surface_format.format
                          swapchain_extent := some extent }
        CreateSwapChain.images host host.swapchain_images r

/-- The function `VulkanRenderer::CreateGraphicsPipiline`, with `ReadFile` and
`CreateShaderModule` inlined, as far as it creates objects and can fail. -/
def CreateGraphicsPipiline (host : Host) (r : VulkanRenderer) : Outcome VulkanRenderer :=
  if !host.file_opens "Shaders/vert.spv" then
    throw_runtime_error r ("Failed to open a file : " ++ "Shaders/vert.spv")
  else if !host.file_opens "Shaders/frag.spv" then
    throw_runtime_error r ("Failed to open a file : " ++ "Shaders/frag.spv")
  else if host.vkCreateShaderModule 0 ≠ VK_SUCCESS then
    throw_runtime_error r "Failed to create shader module"
  else
    let r := r.call (.create (.shader_module 0))
    if host.vkCreateShaderModule 1 ≠ VK_SUCCESS then
      throw_runtime_error r "Failed to create shader module"
    else
      let r := r.call (.create (.shader_module 1))
      let r := r.call (.destroy (.shader_module 0))
      ⟨r.call (.destroy (.shader_module 1)), none⟩

/-- The loop of `Clean` over `swapchain_images`. -/
def Clean.image_views : List SwapchainImage → VulkanRenderer → VulkanRenderer
  | [], r => r
  | image :: rest, r =>
    Clean.image_views rest (r.call (.destroy (.image_view image.image_view)))

/-- The function `DestroyDebugUtilsMessengerEXT`. -/
def DestroyDebugUtilsMessengerEXT (host : Host) (r : VulkanRenderer) : VulkanRenderer :=
  if host.vkGetInstanceProcAddr "vkDestroyDebugUtilsMessengerEXT" then
    r.call (.destroy .debug_messenger)
  else r

/-- The function `VulkanRenderer::Clean`. -/
def Clean (host : Host) (r : VulkanRenderer) : VulkanRenderer :=
  let r := Clean.image_views r.swapchain_images r
  let r := r.call (.destroy .swapchain)
  let r := r.call (.destroy .surface)
  let r := if host.enable_validation_layers then DestroyDebugUtilsMessengerEXT host r else r
  let r := r.call (.destroy .logical_device)
  r.call (.destroy .vk_instance)

/-- The function `VulkanRenderer::Update`: it returns once the window is
closed, and changes nothing the model records. -/
def Update (host : Host) (r : VulkanRenderer) : Option VulkanRenderer :=
  host.window_closed_after.map fun _ => r

/-- The program `main` runs on a host. -/
def VulkanRenderer.program (host : Host) : Program VulkanRenderer where
  steps :=
    { CreateInstance := CreateInstance host
      SetupDebugMessenger := SetupDebugMessenger host
      CreateSurface := CreateSurface host
      GetPhysicalDevice := VulkanRenderer.GetPhysicalDevice host
      CreateLogicalDevice := CreateLogicalDevice host
      CreateSwapChain := CreateSwapChain host
      CreateGraphicsPipiline := CreateGraphicsPipiline host }
  open_window := fun r => r.call (.create .window)
  Update := Update host
  Clean := Clean host
  destructor := fun r => r.call (.destroy .window)

/-- The objects a record of calls creates, in order. -/
def created : List Call → List Resource
  | [] => []
  | .create r :: rest => r :: created rest
  | .destroy _ :: rest => created rest

/-- The objects a record of calls destroys, in order. -/
def destroyed : List Call → List Resource
  | [] => []
  | .create _ :: rest => destroyed rest
  | .destroy r :: rest => r :: destroyed rest

/-- The owned objects the teardown claim names: instance, debug messenger,
surface, logical device, swapchain and image views. -/
def Resource.owned : Resource → Bool
  | .window => false
  | .shader_module _ => false
  | _ => true

/-- A device with one graphics family that presents, the swapchain extension,
one BGRA format and the FIFO present mode. -/
def sample_device : VkPhysicalDevice :=
  { handle := 1
    extensions := ["VK_KHR_swapchain"]
    queue_family_list := [⟨1, 1⟩]
    presentation_support := fun _ => 1
    surface_capabilities :=
      { minImageCount := 2, maxImageCount := 3, currentExtent := ⟨800, 600⟩,
        minImageExtent := ⟨1, 1⟩, maxImageExtent := ⟨4096, 4096⟩ }
    surface_formats := [⟨44, 0⟩]
    surface_present_modes := [2] }

/-- A development-build host on which every call succeeds and the swapchain
has two images. -/
def sample_host : Host :=
  { enable_validation_layers := true
    available_layers := ["VK_LAYER_KHRONOS_validation"]
    glfw_extensions := ["VK_KHR_surface"]
    instance_extensions := ["VK_KHR_surface", "VK_EXT_debug_utils"]
    vkCreateInstance := 0
    vkGetInstanceProcAddr := fun _ => true
    vkCreateDebugUtilsMessengerEXT := 0
    glfwCreateWindowSurface := 0
    device_list := [sample_device]
    vkCreateDevice := 0
    framebuffer_width := 800
    framebuffer_height := 600
    vkCreateSwapchainKHR := 0
    swapchain_images := [10, 11]
    vkCreateImageView := fun _ => 0
    file_opens := fun _ => true
    vkCreateShaderModule := fun _ => 0
    window_closed_after := some 0 }

/-- A device that lists no extension, no queue family, no format and no
present mode. -/
def bare_device : VkPhysicalDevice :=
  { handle := 0
    extensions := []
    queue_family_list := []
    presentation_support := fun _ => 0
    surface_capabilities :=
      { minImageCount := 1, maxImageCount := 0, currentExtent := ⟨0, 0⟩,
        minImageExtent := ⟨0, 0⟩, maxImageExtent := ⟨0, 0⟩ }
    surface_formats := []
    surface_present_modes := [] }

/-- A second suitable device: graphics on family 0, presentation on family 1. -/
def second_device : VkPhysicalDevice :=
  { handle := 2
    extensions := ["VK_KHR_maintenance1", "VK_KHR_swapchain"]
    queue_family_list := [⟨1, 4⟩, ⟨2, 1⟩]
    presentation_support := fun i => if i = 1 then 1 else 0
    surface_capabilities :=
      { minImageCount := 2, maxImageCount := 0, currentExtent := ⟨4294967295, 4294967295⟩,
        minImageExtent := ⟨16, 16⟩, maxImageExtent := ⟨2048, 1024⟩ }
    surface_formats := [⟨50, 0⟩, ⟨37, 0⟩]
    surface_present_modes := [0, 1, 2] }

/-- Insertion into a `std::set<uint32_t>`, held as the ascending list of its
elements, which is the order a range-`for` visits them in. -/
def std_set_insert (x : Nat) : List Nat → List Nat
  | [] => [x]
  | y :: rest =>
    if x < y then x :: y :: rest
    else if x = y then y :: rest
    else y :: std_set_insert x rest

/-- The fields of `VkDeviceQueueCreateInfo` that differ between the records
`CreateLogicalDevice` builds; every record points to the one `priority`. -/
structure VkDeviceQueueCreateInfo where
  queueFamilyIndex : Nat
  queueCount : Nat
  deriving DecidableEq, Repr

/-- The vector `queue_create_infos` built by `CreateLogicalDevice` from the
queue-family indices of the chosen device: one record per element of the set
`unique_queue_families`.  The result is `none` where `std::optional::value`
throws. -/
def CreateLogicalDevice.queue_create_infos (indices : QueueFamilyIndices) :
    Option (List VkDeviceQueueCreateInfo) :=
  match indices.graphics_family, indices.presentation_family with
  | some graphics_family, some presentation_family =>
    let unique_queue_families :=
      std_set_insert presentation_family (std_set_insert graphics_family [])
    some (unique_queue_families.map fun queue_family =>
      { queueFamilyIndex := queue_family, queueCount := 1 })
  | _, _ => none

/-! # Theorems -/

/-! ## Device suitability and selection -/

/-- C1: `CheckDeviceSuitable` accepts a device exactly when the device has
every required extension, its queue-family index pair is complete, and its
reported surface-format and present-mode lists are both non-empty; a device
missing any one of the four is rejected whatever the other three are. -/
theorem CheckDeviceSuitable_iff (device : VkPhysicalDevice) :
    (CheckDeviceSuitable device = true ↔
      CheckDeviceExtensionSupport device = true ∧
      (GetQueueFamilies device).IsComplete = true ∧
      device.surface_formats ≠ [] ∧
      device.surface_present_modes ≠ []) ∧
    (CheckDeviceExtensionSupport device = false → CheckDeviceSuitable device = false) ∧
    ((GetQueueFamilies device).IsComplete = false → CheckDeviceSuitable device = false) ∧
    (device.surface_formats = [] → CheckDeviceSuitable device = false) ∧
    (device.surface_present_modes = [] → CheckDeviceSuitable device = false) := by
  have key : CheckDeviceSuitable device = true ↔
      CheckDeviceExtensionSupport device = true ∧
      (GetQueueFamilies device).IsComplete = true ∧
      device.surface_formats ≠ [] ∧
      device.surface_present_modes ≠ [] := by
    unfold CheckDeviceSuitable GetSwapChainDetails
    cases hf : device.surface_formats <;> cases hm : device.surface_present_modes <;>
      cases he : CheckDeviceExtensionSupport device <;>
      cases hq : (GetQueueFamilies device).IsComplete <;> simp
  refine ⟨key, ?_, ?_, ?_, ?_⟩
  · intro h
    cases hs : CheckDeviceSuitable device
    · rfl
    · rw [(key.mp hs).1] at h; cases h
  · intro h
    cases hs : CheckDeviceSuitable device
    · rfl
    · rw [(key.mp hs).2.1] at h; cases h
  · intro h
    cases hs : CheckDeviceSuitable device
    · rfl
    · exact absurd h (key.mp hs).2.2.1
  · intro h
    cases hs : CheckDeviceSuitable device
    · rfl
    · exact absurd h (key.mp hs).2.2.2

/-- The scan of `GetPhysicalDevice` stops at the first suitable device. -/
theorem GetPhysicalDevice_loop_first (device_list : List VkPhysicalDevice)
    (physical_device : Option VkPhysicalDevice)
    (hex : ∃ d ∈ device_list, CheckDeviceSuitable d = true) :
    ∃ before chosen after, device_list = before ++ chosen :: after ∧
      (∀ d ∈ before, CheckDeviceSuitable d = false) ∧
      CheckDeviceSuitable chosen = true ∧
      GetPhysicalDevice.loop device_list physical_device = some chosen := by
  induction device_list with
  | nil => obtain ⟨d, hd, _⟩ := hex; cases hd
  | cons device rest ih =>
    cases hs : CheckDeviceSuitable device
    · have hex2 : ∃ d ∈ rest, CheckDeviceSuitable d = true := by
        obtain ⟨d, hd, hd2⟩ := hex
        rcases List.mem_cons.mp hd with rfl | hd
        · rw [hs] at hd2; cases hd2
        · exact ⟨d, hd, hd2⟩
      obtain ⟨before, chosen, after, h1, h2, h3, h4⟩ := ih hex2
      refine ⟨device :: before, chosen, after, by simp [h1], ?_, h3, ?_⟩
      · intro d hd
        rcases List.mem_cons.mp hd with rfl | hd
        · exact hs
        · exact h2 d hd
      · simp [GetPhysicalDevice.loop, hs, h4]
    · exact ⟨[], device, rest, rfl, by simp, hs, by simp [GetPhysicalDevice.loop, hs]⟩

/-- C2: on a non-empty device list holding a suitable device,
`GetPhysicalDevice` returns normally and stores the first suitable device of
the list: every device listed before it is unsuitable, and the devices listed
after it, suitable or not, have no effect. -/
theorem GetPhysicalDevice_first_suitable (device_list : List VkPhysicalDevice)
    (physical_device : Option VkPhysicalDevice)
    (hne : device_list ≠ [])
    (hex : ∃ d ∈ device_list, CheckDeviceSuitable d = true) :
    ∃ before chosen after, device_list = before ++ chosen :: after ∧
      (∀ d ∈ before, CheckDeviceSuitable d = false) ∧
      CheckDeviceSuitable chosen = true ∧
      GetPhysicalDevice device_list physical_device = .ok (some chosen) ∧
      ∀ others, GetPhysicalDevice (before ++ chosen :: others) physical_device
        = .ok (some chosen) := by
  obtain ⟨before, chosen, after, h1, h2, h3, h4⟩ :=
    GetPhysicalDevice_loop_first device_list physical_device hex
  have hlen : device_list.length ≠ 0 := by
    intro h; exact hne (List.length_eq_zero.mp h)
  refine ⟨before, chosen, after, h1, h2, h3, ?_, ?_⟩
  · simp [GetPhysicalDevice, hlen, h4]
  · intro others
    have hloop : ∀ (l : List VkPhysicalDevice), (∀ d ∈ l, CheckDeviceSuitable d = false) →
        GetPhysicalDevice.loop (l ++ chosen :: others) physical_device = some chosen := by
      intro l
      induction l with
      | nil => intro _; simp [GetPhysicalDevice.loop, h3]
      | cons a l ih =>
        intro hl
        have ha : CheckDeviceSuitable a = false := hl a (by simp)
        simp only [List.cons_append, GetPhysicalDevice.loop, ha]
        exact ih (fun d hd => hl d (List.mem_cons_of_mem _ hd))
    simp [GetPhysicalDevice, hloop before h2]



/-- Witness of C2: a list with an unsuitable device followed by two suitable ones. -/
theorem GetPhysicalDevice_first_suitable_witness :
    ∃ before chosen after,
      [bare_device, sample_device, second_device] = before ++ chosen :: after ∧
      (∀ d ∈ before, CheckDeviceSuitable d = false) ∧
      CheckDeviceSuitable chosen = true ∧
      GetPhysicalDevice [bare_device, sample_device, second_device] none = .ok (some chosen) ∧
      ∀ others, GetPhysicalDevice (before ++ chosen :: others) none = .ok (some chosen) :=
  GetPhysicalDevice_first_suitable [bare_device, sample_device, second_device] none
    (by simp) ⟨sample_device, by simp, by decide⟩


/-! ## Surface format, present mode, extent and image count -/

/-- What the scan of `ChooseBestSurfaceFormat` finds: an entry of the list
that is RGBA or BGRA in the sRGB nonlinear colour space, or nothing when the
list has no such entry. -/
theorem ChooseBestSurfaceFormat_scan_spec (formats : List VkSurfaceFormatKHR) :
    (∀ r, ChooseBestSurfaceFormat.scan formats = some r →
      r ∈ formats ∧
      (r.format = VK_FORMAT_R8G8B8A8_UNORM ∨ r.format = VK_FORMAT_B8G8R8A8_UNORM) ∧
      r.colorSpace = VK_COLOR_SPACE_SRGB_NONLINEAR_KHR) ∧
    (ChooseBestSurfaceFormat.scan formats = none →
      ∀ f ∈ formats,
        ¬((f.format = VK_FORMAT_R8G8B8A8_UNORM ∨ f.format = VK_FORMAT_B8G8R8A8_UNORM) ∧
          f.colorSpace = VK_COLOR_SPACE_SRGB_NONLINEAR_KHR)) := by
  induction formats with
  | nil => simp [ChooseBestSurfaceFormat.scan]
  | cons f rest ih =>
    unfold ChooseBestSurfaceFormat.scan
    split_ifs with h
    · refine ⟨?_, by simp⟩
      intro r hr
      simp only [Option.some.injEq] at hr
      subst hr
      exact ⟨by simp, h.1, h.2⟩
    · refine ⟨?_, ?_⟩
      · intro r hr
        obtain ⟨h1, h2⟩ := ih.1 r hr
        exact ⟨List.mem_cons_of_mem _ h1, h2⟩
      · intro hn g hg
        rcases List.mem_cons.mp hg with rfl | hg
        · exact h
        · exact ih.2 hn g hg

/-- C3: on a non-empty format list that is not a single `UNDEFINED` entry,
`ChooseBestSurfaceFormat` returns an entry of the list that is RGBA or BGRA
in the sRGB nonlinear colour space when the list has one, at any position,
and the first entry of the list when it has none. -/
theorem ChooseBestSurfaceFormat_match_or_first (formats : List VkSurfaceFormatKHR)
    (hne : formats ≠ [])
    (hundef : ¬ ∃ colorSpace, formats = [⟨VK_FORMAT_UNDEFINED, colorSpace⟩]) :
    ((∃ f ∈ formats,
        (f.format = VK_FORMAT_R8G8B8A8_UNORM ∨ f.format = VK_FORMAT_B8G8R8A8_UNORM) ∧
        f.colorSpace = VK_COLOR_SPACE_SRGB_NONLINEAR_KHR) →
      ∃ r, ChooseBestSurfaceFormat formats = some r ∧ r ∈ formats ∧
        (r.format = VK_FORMAT_R8G8B8A8_UNORM ∨ r.format = VK_FORMAT_B8G8R8A8_UNORM) ∧
        r.colorSpace = VK_COLOR_SPACE_SRGB_NONLINEAR_KHR) ∧
    ((¬ ∃ f ∈ formats,
        (f.format = VK_FORMAT_R8G8B8A8_UNORM ∨ f.format = VK_FORMAT_B8G8R8A8_UNORM) ∧
        f.colorSpace = VK_COLOR_SPACE_SRGB_NONLINEAR_KHR) →
      ∃ first rest, formats = first :: rest ∧ ChooseBestSurfaceFormat formats = some first) := by
  obtain ⟨first, rest, rfl⟩ := List.exists_cons_of_ne_nil hne
  have hcond : ¬(((first :: rest).length = 1) ∧
      ((first :: rest).head?.map fun f => f.format) = some VK_FORMAT_UNDEFINED) := by
    rintro ⟨hl, hf⟩
    apply hundef
    have hrest : rest = [] := by
      cases rest with
      | nil => rfl
      | cons a l => simp at hl
    subst hrest
    refine ⟨first.colorSpace, ?_⟩
    simp only [List.head?_cons, Option.map_some', Option.some.injEq] at hf
    cases first
    simp_all
  have hscan := ChooseBestSurfaceFormat_scan_spec (first :: rest)
  unfold ChooseBestSurfaceFormat
  rw [if_neg hcond]
  refine ⟨?_, ?_⟩
  · rintro ⟨f, hf, hshape⟩
    cases hs : ChooseBestSurfaceFormat.scan (first :: rest) with
    | none => exact absurd hshape (hscan.2 hs f hf)
    | some r =>
      obtain ⟨h1, h2, h3⟩ := hscan.1 r hs
      exact ⟨r, rfl, h1, h2, h3⟩
  · intro hno
    cases hs : ChooseBestSurfaceFormat.scan (first :: rest) with
    | none => exact ⟨first, rest, rfl, rfl⟩
    | some r =>
      obtain ⟨h1, h2, h3⟩ := hscan.1 r hs
      exact absurd ⟨r, h1, h2, h3⟩ hno

/-- Witness of C3: a list whose third entry is the only BGRA/sRGB one. -/
theorem ChooseBestSurfaceFormat_match_or_first_witness :
    ((∃ f ∈ [(⟨50, 0⟩ : VkSurfaceFormatKHR), ⟨37, 7⟩, ⟨44, 0⟩],
        (f.format = VK_FORMAT_R8G8B8A8_UNORM ∨ f.format = VK_FORMAT_B8G8R8A8_UNORM) ∧
        f.colorSpace = VK_COLOR_SPACE_SRGB_NONLINEAR_KHR) →
      ∃ r, ChooseBestSurfaceFormat [⟨50, 0⟩, ⟨37, 7⟩, ⟨44, 0⟩] = some r ∧
        r ∈ [(⟨50, 0⟩ : VkSurfaceFormatKHR), ⟨37, 7⟩, ⟨44, 0⟩] ∧
        (r.format = VK_FORMAT_R8G8B8A8_UNORM ∨ r.format = VK_FORMAT_B8G8R8A8_UNORM) ∧
        r.colorSpace = VK_COLOR_SPACE_SRGB_NONLINEAR_KHR) ∧
    ((¬ ∃ f ∈ [(⟨50, 0⟩ : VkSurfaceFormatKHR), ⟨37, 7⟩, ⟨44, 0⟩],
        (f.format = VK_FORMAT_R8G8B8A8_UNORM ∨ f.format = VK_FORMAT_B8G8R8A8_UNORM) ∧
        f.colorSpace = VK_COLOR_SPACE_SRGB_NONLINEAR_KHR) →
      ∃ first rest, [(⟨50, 0⟩ : VkSurfaceFormatKHR), ⟨37, 7⟩, ⟨44, 0⟩] = first :: rest ∧
        ChooseBestSurfaceFormat [⟨50, 0⟩, ⟨37, 7⟩, ⟨44, 0⟩] = some first) :=
  ChooseBestSurfaceFormat_match_or_first [⟨50, 0⟩, ⟨37, 7⟩, ⟨44, 0⟩] (by simp) (by simp)

/-- C4: on a list of exactly one entry whose format is `UNDEFINED`, whatever
its colour space, `ChooseBestSurfaceFormat` returns
(`R8G8B8A8_UNORM`, `SRGB_NONLINEAR`). -/
theorem ChooseBestSurfaceFormat_single_undefined (colorSpace : Nat) :
    ChooseBestSurfaceFormat [⟨VK_FORMAT_UNDEFINED, colorSpace⟩] =
      some ⟨VK_FORMAT_R8G8B8A8_UNORM, VK_COLOR_SPACE_SRGB_NONLINEAR_KHR⟩ := by
  simp [ChooseBestSurfaceFormat]

/-- C5: `ChooseBestPresentationMode` returns `MAILBOX` when `MAILBOX` occurs
anywhere in the list and `FIFO` when it does not, the empty list included. -/
theorem ChooseBestPresentationMode_spec (presentation_modes : List Nat) :
    ChooseBestPresentationMode presentation_modes =
      if VK_PRESENT_MODE_MAILBOX_KHR ∈ presentation_modes then VK_PRESENT_MODE_MAILBOX_KHR
      else VK_PRESENT_MODE_FIFO_KHR := by
  induction presentation_modes with
  | nil => simp [ChooseBestPresentationMode]
  | cons m rest ih =>
    unfold ChooseBestPresentationMode
    by_cases h : m = VK_PRESENT_MODE_MAILBOX_KHR
    · simp [h]
    · have h2 : ¬ VK_PRESENT_MODE_MAILBOX_KHR = m := fun e => h e.symm
      simp [h, h2, ih]

/-- C6: when the current extent is the sentinel (the source tests its width
against `UINT32_MAX`) and the minimum extent does not exceed the maximum
extent in either dimension, `ChooseSwapExtent` returns, for the framebuffer
size converted to `uint32_t`, the width clamped into the width bounds and the
height clamped into the height bounds, each from its own dimension alone; so
each returned dimension lies in its inclusive range. -/
theorem ChooseSwapExtent_sentinel_clamps (surface_capabilities : VkSurfaceCapabilitiesKHR)
    (width height : Int)
    (hsentinel : surface_capabilities.currentExtent.width = UINT32_MAX)
    (hwidth : surface_capabilities.minImageExtent.width ≤
      surface_capabilities.maxImageExtent.width)
    (hheight : surface_capabilities.minImageExtent.height ≤
      surface_capabilities.maxImageExtent.height) :
    (ChooseSwapExtent surface_capabilities width height).width =
      (if static_cast_uint32 width < surface_capabilities.minImageExtent.width then
        surface_capabilities.minImageExtent.width
      else if static_cast_uint32 width > surface_capabilities.maxImageExtent.width then
        surface_capabilities.maxImageExtent.width
      else static_cast_uint32 width) ∧
    (ChooseSwapExtent surface_capabilities width height).height =
      (if static_cast_uint32 height < surface_capabilities.minImageExtent.height then
        surface_capabilities.minImageExtent.height
      else if static_cast_uint32 height > surface_capabilities.maxImageExtent.height then
        surface_capabilities.maxImageExtent.height
      else static_cast_uint32 height) ∧
    surface_capabilities.minImageExtent.width ≤
      (ChooseSwapExtent surface_capabilities width height).width ∧
    (ChooseSwapExtent surface_capabilities width height).width ≤
      surface_capabilities.maxImageExtent.width ∧
    surface_capabilities.minImageExtent.height ≤
      (ChooseSwapExtent surface_capabilities width height).height ∧
    (ChooseSwapExtent surface_capabilities width height).height ≤
      surface_capabilities.maxImageExtent.height := by
  unfold ChooseSwapExtent
  rw [if_neg (by simpa using hsentinel)]
  simp only
  refine ⟨?_, ?_, ?_, ?_, ?_, ?_⟩
  · split_ifs <;> omega
  · split_ifs <;> omega
  · omega
  · omega
  · omega
  · omega

/-- Witness of C6: a framebuffer too narrow and too tall for the bounds
16..2048 by 16..1024 is clamped to 16 by 1024. -/
theorem ChooseSwapExtent_sentinel_clamps_witness :
    (ChooseSwapExtent second_device.surface_capabilities 8 5000).width = 16 ∧
    (ChooseSwapExtent second_device.surface_capabilities 8 5000).height = 1024 :=
  ⟨(ChooseSwapExtent_sentinel_clamps second_device.surface_capabilities 8 5000
      (by decide) (by decide) (by decide)).1.trans (by decide),
   (ChooseSwapExtent_sentinel_clamps second_device.surface_capabilities 8 5000
      (by decide) (by decide) (by decide)).2.1.trans (by decide)⟩

/-- C7: when the current extent is not the sentinel (its width is not
`UINT32_MAX`), `ChooseSwapExtent` returns the current extent unchanged,
whatever the framebuffer size and the minimum and maximum extents are. -/
theorem ChooseSwapExtent_current_verbatim (surface_capabilities : VkSurfaceCapabilitiesKHR)
    (width height : Int)
    (hcurrent : surface_capabilities.currentExtent.width ≠ UINT32_MAX) :
    ChooseSwapExtent surface_capabilities width height =
      surface_capabilities.currentExtent := by
  unfold ChooseSwapExtent
  rw [if_pos hcurrent]

/-- Witness of C7: an 800 by 600 current extent outside the reported bounds. -/
theorem ChooseSwapExtent_current_verbatim_witness :
    ChooseSwapExtent
      { minImageCount := 2, maxImageCount := 3, currentExtent := ⟨800, 600⟩,
        minImageExtent := ⟨1000, 1000⟩, maxImageExtent := ⟨10, 10⟩ } 1920 1080 = ⟨800, 600⟩ :=
  ChooseSwapExtent_current_verbatim
    { minImageCount := 2, maxImageCount := 3, currentExtent := ⟨800, 600⟩,
      minImageExtent := ⟨1000, 1000⟩, maxImageExtent := ⟨10, 10⟩ } 1920 1080 (by decide)

/-- C8: the image count `CreateSwapChain` requests is `minImageCount + 1` in
`uint32_t` arithmetic, unless `maxImageCount` is nonzero and smaller than
that sum, in which case it is `maxImageCount`; a `maxImageCount` of 0 never
caps the count. -/
theorem CreateSwapChain_image_count_spec (surface_capabilities : VkSurfaceCapabilitiesKHR) :
    (CreateSwapChain.image_count surface_capabilities =
      if surface_capabilities.maxImageCount ≠ 0 ∧
          surface_capabilities.maxImageCount <
            (surface_capabilities.minImageCount + 1) % 2 ^ 32 then
        surface_capabilities.maxImageCount
      else (surface_capabilities.minImageCount + 1) % 2 ^ 32) ∧
    (surface_capabilities.maxImageCount = 0 →
      CreateSwapChain.image_count surface_capabilities =
        (surface_capabilities.minImageCount + 1) % 2 ^ 32) := by
  unfold CreateSwapChain.image_count
  refine ⟨?_, ?_⟩
  · simp only [gt_iff_lt, Nat.pos_iff_ne_zero]
    norm_num
  · intro h
    simp [h]

/-! ## Failure of a set-up step -/

/-- When a sequence of two statements returns, the first returned and the
sequence ends as the second does from the state the first left. -/
theorem Outcome.andThen_returned {σ : Type} (o : Outcome σ) (f : σ → Outcome σ)
    (h : (o.andThen f).thrown = none) :
    o.thrown = none ∧ o.andThen f = f o.state := by
  unfold Outcome.andThen at *
  cases ho : o.thrown with
  | none => simp
  | some e => simp [ho] at h

/-- When `CreateInstance` returns, it has created the instance. -/
theorem CreateInstance_returned (host : Host) (r : VulkanRenderer)
    (h : (CreateInstance host r).thrown = none) :
    (CreateInstance host r).state = r.call (.create .vk_instance) := by
  simp only [CreateInstance, throw_runtime_error] at h ⊢
  repeat' split at h
  all_goals simp_all

/-- When `SetupDebugMessenger` returns, it has created the debug messenger in a
development build and nothing otherwise. -/
theorem SetupDebugMessenger_returned (host : Host) (r : VulkanRenderer)
    (h : (SetupDebugMessenger host r).thrown = none) :
    (SetupDebugMessenger host r).state =
      if host.enable_validation_layers then r.call (.create .debug_messenger) else r := by
  simp only [SetupDebugMessenger, throw_runtime_error] at h ⊢
  repeat' split at h
  all_goals simp_all

/-- When `CreateSurface` returns, it has created the surface. -/
theorem CreateSurface_returned (host : Host) (r : VulkanRenderer)
    (h : (CreateSurface host r).thrown = none) :
    (CreateSurface host r).state = r.call (.create .surface) := by
  simp only [CreateSurface, throw_runtime_error] at h ⊢
  repeat' split at h
  all_goals simp_all

/-- The step `GetPhysicalDevice` makes no creating or destroying call and
leaves `swapchain_images` alone. -/
theorem GetPhysicalDevice_returned (host : Host) (r : VulkanRenderer) :
    (VulkanRenderer.GetPhysicalDevice host r).state.calls = r.calls ∧
    (VulkanRenderer.GetPhysicalDevice host r).state.swapchain_images = r.swapchain_images := by
  unfold VulkanRenderer.GetPhysicalDevice
  split <;> simp [throw_runtime_error]

/-- When `CreateLogicalDevice` returns, it has created the logical device. -/
theorem CreateLogicalDevice_returned (host : Host) (r : VulkanRenderer)
    (h : (CreateLogicalDevice host r).thrown = none) :
    (CreateLogicalDevice host r).state = r.call (.create .logical_device) := by
  simp only [CreateLogicalDevice, throw_runtime_error] at h ⊢
  repeat' split at h
  all_goals simp_all

/-- When the image loop of `CreateSwapChain` returns, it has created one view
per image, numbered from the count of images stored before. -/
theorem CreateSwapChain_images_returned (host : Host) (images : List Nat) :
    ∀ r : VulkanRenderer, (CreateSwapChain.images host images r).thrown = none →
      (CreateSwapChain.images host images r).state.calls =
        r.calls ++ (List.range' r.swapchain_images.length images.length).map
          (fun i => Call.create (.image_view i)) ∧
      (CreateSwapChain.images host images r).state.swapchain_images.map (fun i => i.image_view) =
        r.swapchain_images.map (fun i => i.image_view) ++
          List.range' r.swapchain_images.length images.length := by
  induction images with
  | nil => intro r _; simp [CreateSwapChain.images]
  | cons image rest ih =>
    intro r h
    unfold CreateSwapChain.images at h ⊢
    split_ifs at h ⊢ with hv
    · simp [throw_runtime_error] at h
    · obtain ⟨h1, h2⟩ := ih _ h
      simp only at h1 h2 ⊢
      rw [h1, h2]
      simp [VulkanRenderer.call, List.range'_succ]

/-- When `CreateSwapChain` returns, it has created the swapchain and then one
view per swapchain image. -/
theorem CreateSwapChain_returned (host : Host) (r : VulkanRenderer)
    (h : (CreateSwapChain host r).thrown = none) :
    (CreateSwapChain host r).state.calls =
      r.calls ++ Call.create .swapchain ::
        (List.range' r.swapchain_images.length host.swapchain_images.length).map
          (fun i => Call.create (.image_view i)) ∧
    (CreateSwapChain host r).state.swapchain_images.map (fun i => i.image_view) =
      r.swapchain_images.map (fun i => i.image_view) ++
        List.range' r.swapchain_images.length host.swapchain_images.length := by
  simp only [CreateSwapChain, throw_runtime_error] at h ⊢
  repeat' split at h
  any_goals (cases h)
  rename_i x1 pd hpd x2 sf hsf hq hv
  simp only [hpd, hsf, if_neg hq, if_neg hv]
  obtain ⟨e1, e2⟩ := CreateSwapChain_images_returned host _ _ h
  simp only at e1 e2
  rw [e1, e2]
  simp [VulkanRenderer.call]

/-- When `CreateGraphicsPipiline` returns, it has created two shader modules
and destroyed both. -/
theorem CreateGraphicsPipiline_returned (host : Host) (r : VulkanRenderer)
    (h : (CreateGraphicsPipiline host r).thrown = none) :
    (CreateGraphicsPipiline host r).state =
      (((r.call (.create (.shader_module 0))).call (.create (.shader_module 1))).call
        (.destroy (.shader_module 0))).call (.destroy (.shader_module 1)) := by
  simp only [CreateGraphicsPipiline, throw_runtime_error] at h ⊢
  repeat' split at h
  all_goals simp_all

/-- The loop of `Clean` destroys the stored image views in list order. -/
theorem Clean_image_views_calls (images : List SwapchainImage) :
    ∀ r : VulkanRenderer, (Clean.image_views images r).calls =
      r.calls ++ (images.map fun i => i.image_view).map (fun i => Call.destroy (.image_view i)) := by
  induction images with
  | nil => intro r; simp [Clean.image_views]
  | cons image rest ih =>
    intro r
    simp [Clean.image_views, ih, VulkanRenderer.call]

/-- The calls made by an `Init` that returns 0 on a fresh renderer, and the
views it stores. -/
theorem Init_returned_calls (host : Host)
    (hinit : (Init (VulkanRenderer.program host).steps (VulkanRenderer.program host).open_window
      VulkanRenderer.fresh).2 = some 0) :
    (Init (VulkanRenderer.program host).steps (VulkanRenderer.program host).open_window
        VulkanRenderer.fresh).1.calls =
      ([Resource.window, .vk_instance] ++
        (if host.enable_validation_layers then [Resource.debug_messenger] else []) ++
        [Resource.surface, .logical_device, .swapchain] ++
        (List.range host.swapchain_images.length).map Resource.image_view ++
        [Resource.shader_module 0, .shader_module 1]).map Call.create ++
      [Call.destroy (.shader_module 0), .destroy (.shader_module 1)] ∧
    (Init (VulkanRenderer.program host).steps (VulkanRenderer.program host).open_window
        VulkanRenderer.fresh).1.swapchain_images.map (fun i => i.image_view) =
      List.range host.swapchain_images.length := by
  unfold Init at hinit ⊢
  simp only [VulkanRenderer.program] at hinit ⊢
  generalize ho : Outcome.andThen _ (CreateGraphicsPipiline host) = o at hinit ⊢
  have hthrown : o.thrown = none := by
    cases ht : o.thrown with
    | none => rfl
    | some e => cases e <;> simp [ht, EXIT_FAILURE] at hinit
  simp only [hthrown]
  subst ho
  obtain ⟨h6, e7⟩ := Outcome.andThen_returned _ _ hthrown
  obtain ⟨h5, e6⟩ := Outcome.andThen_returned _ _ h6
  obtain ⟨h4, e5⟩ := Outcome.andThen_returned _ _ h5
  obtain ⟨h3, e4⟩ := Outcome.andThen_returned _ _ h4
  obtain ⟨h2, e3⟩ := Outcome.andThen_returned _ _ h3
  obtain ⟨h1, e2⟩ := Outcome.andThen_returned _ _ h2
  generalize hr0 : VulkanRenderer.fresh.call (Call.create Resource.window) = r0 at *
  generalize ho1 : CreateInstance host r0 = o1 at *
  generalize ho2 : o1.andThen (SetupDebugMessenger host) = o2 at *
  generalize ho3 : o2.andThen (CreateSurface host) = o3 at *
  generalize ho4 : o3.andThen (VulkanRenderer.GetPhysicalDevice host) = o4 at *
  generalize ho5 : o4.andThen (CreateLogicalDevice host) = o5 at *
  generalize ho6 : o5.andThen (CreateSwapChain host) = o6 at *
  generalize ho7 : o6.andThen (CreateGraphicsPipiline host) = o7 at *
  have a1 : o1.state = r0.call (.create .vk_instance) := by
    rw [← ho1]; exact CreateInstance_returned _ _ (by rw [ho1]; exact h1)
  have a2 := SetupDebugMessenger_returned host o1.state (by rw [← e2]; exact h2)
  rw [← e2] at a2
  have a3 := CreateSurface_returned host o2.state (by rw [← e3]; exact h3)
  rw [← e3] at a3
  have a4 := GetPhysicalDevice_returned host o3.state
  rw [← e4] at a4
  have a5 := CreateLogicalDevice_returned host o4.state (by rw [← e5]; exact h5)
  rw [← e5] at a5
  have a6 := CreateSwapChain_returned host o5.state (by rw [← e6]; exact h6)
  rw [← e6] at a6
  have a7 := CreateGraphicsPipiline_returned host o6.state (by rw [← e7]; exact hthrown)
  rw [← e7] at a7
  have c0 : r0.calls = [Call.create Resource.window] ∧ r0.swapchain_images = [] := by
    rw [← hr0]; exact ⟨rfl, rfl⟩
  have c1 : o1.state.calls = [Call.create Resource.window, .create .vk_instance] ∧
      o1.state.swapchain_images = [] := by
    rw [a1]; simp [VulkanRenderer.call, c0]
  have c2 : o2.state.calls = [Call.create Resource.window, .create .vk_instance] ++
        (if host.enable_validation_layers then [Call.create Resource.debug_messenger] else []) ∧
      o2.state.swapchain_images = [] := by
    rw [a2]; split_ifs <;> simp [VulkanRenderer.call, c1]
  have c3 : o3.state.calls = o2.state.calls ++ [Call.create Resource.surface] ∧
      o3.state.swapchain_images = [] := by
    rw [a3]; simp [VulkanRenderer.call, c2]
  have c5 : o5.state.calls = o2.state.calls ++ [Call.create Resource.surface,
        .create .logical_device] ∧ o5.state.swapchain_images = [] := by
    rw [a5]; simp [VulkanRenderer.call, a4.1, a4.2, c3]
  rw [c5.1, c5.2] at a6
  rw [a7]
  simp only [VulkanRenderer.call, a6.1, a6.2, c2.1]
  cases host.enable_validation_layers <;> simp [List.range_eq_range']

/-- The objects created by two records of calls in sequence. -/
theorem created_append (a b : List Call) : created (a ++ b) = created a ++ created b := by
  induction a with
  | nil => rfl
  | cons c rest ih => cases c <;> simp [created, ih]

/-- The objects destroyed by two records of calls in sequence. -/
theorem destroyed_append (a b : List Call) :
    destroyed (a ++ b) = destroyed a ++ destroyed b := by
  induction a with
  | nil => rfl
  | cons c rest ih => cases c <;> simp [destroyed, ih]

/-- A record of creating calls creates its objects in order. -/
theorem created_map_create (l : List Resource) : created (l.map Call.create) = l := by
  induction l with
  | nil => rfl
  | cons c rest ih => simp [created, ih]

/-- A record of destroying calls creates nothing. -/
theorem created_map_destroy (l : List Resource) : created (l.map Call.destroy) = [] := by
  induction l with
  | nil => rfl
  | cons c rest ih => simp [created, ih]

/-- A record of creating calls destroys nothing. -/
theorem destroyed_map_create (l : List Resource) : destroyed (l.map Call.create) = [] := by
  induction l with
  | nil => rfl
  | cons c rest ih => simp [destroyed, ih]

/-- A record of destroying calls destroys its objects in order. -/
theorem destroyed_map_destroy (l : List Resource) : destroyed (l.map Call.destroy) = l := by
  induction l with
  | nil => rfl
  | cons c rest ih => simp [destroyed, ih]

/-- Every image view is an owned object. -/
theorem filter_owned_image_views (l : List Nat) :
    (l.map Resource.image_view).filter Resource.owned = l.map Resource.image_view := by
  induction l with
  | nil => rfl
  | cons c rest ih => simp [Resource.owned, ih]

/-- The image views numbered below `n` are pairwise distinct. -/
theorem image_views_nodup (n : Nat) : ((List.range n).map Resource.image_view).Nodup :=
  (List.nodup_range n).map (fun a b h => by cases h; rfl)

/-- The objects destroyed over a whole run are those created, in another order. -/
theorem run_objects_perm (n : Nat) (dm : List Resource) :
    ([Resource.shader_module 0, .shader_module 1] ++
      ((List.range n).map Resource.image_view ++ [Resource.swapchain, .surface] ++ dm ++
        [Resource.logical_device, .vk_instance]) ++ [Resource.window]).Perm
    ([Resource.window, .vk_instance] ++ dm ++ [Resource.surface, .logical_device, .swapchain] ++
      (List.range n).map Resource.image_view ++ [Resource.shader_module 0, .shader_module 1]) := by
  rw [List.perm_iff_count]
  intro a
  simp only [List.count_append, List.count_cons, List.count_nil]
  omega

/-- The objects created over a whole run are pairwise distinct. -/
theorem run_objects_nodup (n : Nat) (dm : List Resource)
    (hdm : dm = [] ∨ dm = [Resource.debug_messenger]) :
    ([Resource.window, .vk_instance] ++ dm ++ [Resource.surface, .logical_device, .swapchain] ++
      (List.range n).map Resource.image_view ++
      [Resource.shader_module 0, .shader_module 1]).Nodup := by
  have := image_views_nodup n
  rcases hdm with rfl | rfl <;> simp [List.nodup_append, this]

/-- The calls `Clean` appends to the record. -/
theorem Clean_calls (host : Host) (r : VulkanRenderer)
    (hproc : host.enable_validation_layers = true →
      host.vkGetInstanceProcAddr "vkDestroyDebugUtilsMessengerEXT" = true) :
    (Clean host r).calls =
      r.calls ++
        ((r.swapchain_images.map fun i => Resource.image_view i.image_view) ++
          [Resource.swapchain, .surface] ++
          (if host.enable_validation_layers then [Resource.debug_messenger] else []) ++
          [Resource.logical_device, .vk_instance]).map Call.destroy := by
  unfold Clean
  cases hv : host.enable_validation_layers
  · simp [VulkanRenderer.call, Clean_image_views_calls]
  · simp [VulkanRenderer.call, Clean_image_views_calls, DestroyDebugUtilsMessengerEXT,
      hproc hv]

/-- C9, as amended: on a run where `Init` returns 0 and the window is then
closed (the debug-messenger destroy entry point resolving in a development
build), `main` returns 0; `Init` creates the instance, the debug messenger
(development build), the surface, the logical device, the swapchain and the
image views, in this order; `Clean` destroys the image views in the order of
their creation, then the swapchain, the surface, the debug messenger
(development build), the logical device and the instance; and over the whole
run every object is created exactly once and destroyed exactly once. -/
theorem Clean_destroys_what_Init_created (host : Host)
    (hinit : (Init (VulkanRenderer.program host).steps (VulkanRenderer.program host).open_window
      VulkanRenderer.fresh).2 = some 0)
    (hclosed : host.window_closed_after ≠ none)
    (hproc : host.enable_validation_layers = true →
      host.vkGetInstanceProcAddr "vkDestroyDebugUtilsMessengerEXT" = true) :
    (main (VulkanRenderer.program host) VulkanRenderer.fresh).2 = some 0 ∧
    (created (Init (VulkanRenderer.program host).steps (VulkanRenderer.program host).open_window
        VulkanRenderer.fresh).1.calls).filter Resource.owned =
      [Resource.vk_instance] ++
        (if host.enable_validation_layers then [Resource.debug_messenger] else []) ++
        [Resource.surface, .logical_device, .swapchain] ++
        (List.range host.swapchain_images.length).map Resource.image_view ∧
    destroyed (Clean host { (Init (VulkanRenderer.program host).steps
        (VulkanRenderer.program host).open_window VulkanRenderer.fresh).1 with calls := [] }).calls =
      (List.range host.swapchain_images.length).map Resource.image_view ++
        [Resource.swapchain, .surface] ++
        (if host.enable_validation_layers then [Resource.debug_messenger] else []) ++
        [Resource.logical_device, .vk_instance] ∧
    (main (VulkanRenderer.program host) VulkanRenderer.fresh).1.calls =
      (Init (VulkanRenderer.program host).steps (VulkanRenderer.program host).open_window
        VulkanRenderer.fresh).1.calls ++
      (Clean host { (Init (VulkanRenderer.program host).steps
        (VulkanRenderer.program host).open_window VulkanRenderer.fresh).1 with calls := [] }).calls ++
      [Call.destroy .window] ∧
    (created (main (VulkanRenderer.program host) VulkanRenderer.fresh).1.calls).Nodup ∧
    (destroyed (main (VulkanRenderer.program host) VulkanRenderer.fresh).1.calls).Perm
      (created (main (VulkanRenderer.program host) VulkanRenderer.fresh).1.calls) := by
  obtain ⟨hc, hs⟩ := Init_returned_calls host hinit
  have hviews : ∀ calls, ({ (Init (VulkanRenderer.program host).steps
      (VulkanRenderer.program host).open_window VulkanRenderer.fresh).1 with
        calls := calls } : VulkanRenderer).swapchain_images.map
          (fun i => Resource.image_view i.image_view) =
      (List.range host.swapchain_images.length).map Resource.image_view := by
    intro calls
    rw [← hs, List.map_map]
    rfl
  have hupdate : ∀ r, Update host r = some r := by
    intro r
    unfold Update
    cases hw : host.window_closed_after with
    | none => exact absurd hw hclosed
    | some n => rfl
  have hmain : main (VulkanRenderer.program host) VulkanRenderer.fresh =
      (((Clean host (Init (VulkanRenderer.program host).steps
        (VulkanRenderer.program host).open_window VulkanRenderer.fresh).1).call
          (Call.destroy .window)), some 0) := by
    unfold main
    generalize hI : Init (VulkanRenderer.program host).steps
      (VulkanRenderer.program host).open_window VulkanRenderer.fresh = I at hinit ⊢
    obtain ⟨s, status⟩ := I
    simp only at hinit
    subst hinit
    simp [EXIT_FAILURE, VulkanRenderer.program, hupdate]
  have hclean0 := Clean_calls host { (Init (VulkanRenderer.program host).steps
      (VulkanRenderer.program host).open_window VulkanRenderer.fresh).1 with calls := [] } hproc
  have hclean := Clean_calls host (Init (VulkanRenderer.program host).steps
      (VulkanRenderer.program host).open_window VulkanRenderer.fresh).1 hproc
  rw [hviews] at hclean0
  have hviews2 := hviews (Init (VulkanRenderer.program host).steps
      (VulkanRenderer.program host).open_window VulkanRenderer.fresh).1.calls
  simp only at hviews2
  rw [hviews2] at hclean
  have hdm : (if host.enable_validation_layers then [Resource.debug_messenger] else []) = [] ∨
      (if host.enable_validation_layers then [Resource.debug_messenger] else []) =
        [Resource.debug_messenger] := by
    cases host.enable_validation_layers <;> simp
  refine ⟨by rw [hmain], ?_, ?_, ?_, ?_, ?_⟩
  · rw [hc]
    simp only [created_append, created_map_create, List.filter_append,
      filter_owned_image_views]
    rcases hdm with h | h <;> rw [h] <;> simp [created, Resource.owned]
  · rw [hclean0]
    simp only [destroyed_append, destroyed_map_destroy]
    rfl
  · rw [hmain]
    simp only [VulkanRenderer.call, hclean, hclean0]
    simp
  · rw [hmain]
    simp only [VulkanRenderer.call, hclean, hc, created_append, created_map_create,
      created_map_destroy]
    simpa [created] using run_objects_nodup host.swapchain_images.length _ hdm
  · rw [hmain]
    simp only [VulkanRenderer.call, hclean, hc, created_append, created_map_create,
      created_map_destroy, destroyed_append, destroyed_map_create, destroyed_map_destroy]
    simpa [created, destroyed] using run_objects_perm host.swapchain_images.length
      (if host.enable_validation_layers then [Resource.debug_messenger] else [])

/-- Witness of C9 as amended: on the sample host, `Clean` destroys the two
image views, the swapchain, the surface, the debug messenger, the logical
device and the instance, in this order. -/
theorem Clean_destroys_what_Init_created_witness :
    destroyed (Clean sample_host { (Init (VulkanRenderer.program sample_host).steps
        (VulkanRenderer.program sample_host).open_window VulkanRenderer.fresh).1 with
          calls := [] }).calls =
      [Resource.image_view 0, .image_view 1, .swapchain, .surface, .debug_messenger,
        .logical_device, .vk_instance] :=
  (Clean_destroys_what_Init_created sample_host (by decide) (by decide) (by decide)).2.2.1

/-- C9 as stated fails: on the sample host `Init` returns 0, creates the
instance, debug messenger, surface, logical device, swapchain and two image
views in this order, and `Clean` destroys the surface and the debug messenger
before the logical device and the image views in the order of their creation,
which is not the reverse of the creation order. -/
theorem Clean_not_reverse_of_Init :
    (Init (VulkanRenderer.program sample_host).steps
      (VulkanRenderer.program sample_host).open_window VulkanRenderer.fresh).2 = some 0 ∧
    (created (Init (VulkanRenderer.program sample_host).steps
      (VulkanRenderer.program sample_host).open_window VulkanRenderer.fresh).1.calls).filter
        Resource.owned =
      [Resource.vk_instance, .debug_messenger, .surface, .logical_device, .swapchain,
        .image_view 0, .image_view 1] ∧
    destroyed (Clean sample_host { (Init (VulkanRenderer.program sample_host).steps
        (VulkanRenderer.program sample_host).open_window VulkanRenderer.fresh).1 with
          calls := [] }).calls =
      [Resource.image_view 0, .image_view 1, .swapchain, .surface, .debug_messenger,
        .logical_device, .vk_instance] ∧
    destroyed (Clean sample_host { (Init (VulkanRenderer.program sample_host).steps
        (VulkanRenderer.program sample_host).open_window VulkanRenderer.fresh).1 with
          calls := [] }).calls ≠
      ((created (Init (VulkanRenderer.program sample_host).steps
        (VulkanRenderer.program sample_host).open_window VulkanRenderer.fresh).1.calls).filter
          Resource.owned).reverse := by
  decide

/-! ## Queue creation records -/

/-- C11: from a complete index pair, `CreateLogicalDevice` builds one queue
creation record per distinct family index: a single record when the graphics
and presentation indices coincide and two records, one per index, when they
differ; every record requests exactly one queue and no family index occurs in
two records. -/
theorem CreateLogicalDevice_queue_create_infos_distinct
    (graphics_family presentation_family : Nat) :
    ∃ infos,
      CreateLogicalDevice.queue_create_infos ⟨some graphics_family, some presentation_family⟩ =
        some infos ∧
      (graphics_family = presentation_family → infos = [⟨graphics_family, 1⟩]) ∧
      (graphics_family ≠ presentation_family →
        infos.length = 2 ∧
        (⟨graphics_family, 1⟩ : VkDeviceQueueCreateInfo) ∈ infos ∧
        (⟨presentation_family, 1⟩ : VkDeviceQueueCreateInfo) ∈ infos) ∧
      (∀ family, family ∈ infos.map (fun info => info.queueFamilyIndex) ↔
        family = graphics_family ∨ family = presentation_family) ∧
      (∀ info ∈ infos, info.queueCount = 1) ∧
      (infos.map fun info => info.queueFamilyIndex).Nodup := by
  rcases Nat.lt_trichotomy presentation_family graphics_family with h | h | h
  · refine ⟨[⟨presentation_family, 1⟩, ⟨graphics_family, 1⟩], ?_, ?_, ?_, ?_, ?_, ?_⟩
    · simp [CreateLogicalDevice.queue_create_infos, std_set_insert, h]
    · intro e; omega
    · intro _; simp
    · intro family; simp; tauto
    · simp
    · simp; omega
  · subst h
    refine ⟨[⟨presentation_family, 1⟩], ?_, ?_, ?_, ?_, ?_, ?_⟩
    · simp [CreateLogicalDevice.queue_create_infos, std_set_insert]
    · intro _; rfl
    · intro e; exact absurd rfl e
    · intro family; simp
    · simp
    · simp
  · have h1 : ¬ presentation_family < graphics_family := by omega
    have h2 : ¬ presentation_family = graphics_family := by omega
    refine ⟨[⟨graphics_family, 1⟩, ⟨presentation_family, 1⟩], ?_, ?_, ?_, ?_, ?_, ?_⟩
    · simp [CreateLogicalDevice.queue_create_infos, std_set_insert, h1, h2]
    · intro e; omega
    · intro _; simp
    · intro family; simp
    · simp
    · simp; omega

/-! ## Queue families -/

/-- The scan of `GetQueueFamilies` ends with a complete pair exactly when each
slot was populated before or some family scanned has the capability. -/
theorem GetQueueFamilies_loop_complete (device : VkPhysicalDevice)
    (l : List VkQueueFamilyProperties) :
    ∀ (i : Nat) (indices : QueueFamilyIndices),
      (GetQueueFamilies.loop device l i indices).IsComplete = true ↔
        (indices.graphics_family.isSome = true ∨ ∃ p ∈ l.enumFrom i,
          p.2.queueCount > 0 ∧ p.2.queueFlags &&& VK_QUEUE_GRAPHICS_BIT ≠ 0) ∧
        (indices.presentation_family.isSome = true ∨ ∃ p ∈ l.enumFrom i,
          p.2.queueCount > 0 ∧ device.presentation_support p.1 ≠ 0) := by
  induction l with
  | nil => intro i indices; simp [GetQueueFamilies.loop, QueueFamilyIndices.IsComplete]
  | cons f rest ih =>
    intro i indices
    simp only [GetQueueFamilies.loop, List.enumFrom_cons, List.mem_cons, exists_eq_or_imp]
    by_cases hg : f.queueCount > 0 ∧ f.queueFlags &&& VK_QUEUE_GRAPHICS_BIT ≠ 0 <;>
    by_cases hp : f.queueCount > 0 ∧ device.presentation_support i ≠ 0 <;>
    simp only [hg, hp, if_true, if_false] <;>
    split_ifs with hc <;>
    simp_all [QueueFamilyIndices.IsComplete]

/-- A slot populated at the end of the scan of `GetQueueFamilies` held that
value before, or names a scanned family that has the slot's capability. -/
theorem GetQueueFamilies_loop_slots (device : VkPhysicalDevice)
    (l : List VkQueueFamilyProperties) :
    ∀ (i : Nat) (indices : QueueFamilyIndices),
      (∀ g, (GetQueueFamilies.loop device l i indices).graphics_family = some g →
        indices.graphics_family = some g ∨ ∃ p ∈ l.enumFrom i, p.1 = g ∧
          p.2.queueCount > 0 ∧ p.2.queueFlags &&& VK_QUEUE_GRAPHICS_BIT ≠ 0) ∧
      (∀ g, (GetQueueFamilies.loop device l i indices).presentation_family = some g →
        indices.presentation_family = some g ∨ ∃ p ∈ l.enumFrom i, p.1 = g ∧
          p.2.queueCount > 0 ∧ device.presentation_support p.1 ≠ 0) := by
  induction l with
  | nil => intro i indices; simp [GetQueueFamilies.loop]
  | cons f rest ih =>
    intro i indices
    simp only [GetQueueFamilies.loop, List.enumFrom_cons, List.mem_cons, exists_eq_or_imp]
    generalize hind1 : (if f.queueCount > 0 ∧ f.queueFlags &&& VK_QUEUE_GRAPHICS_BIT ≠ 0 then
      ({ indices with graphics_family := some i } : QueueFamilyIndices) else indices) = ind1
    generalize hind2 : (if f.queueCount > 0 ∧ device.presentation_support i ≠ 0 then
      ({ ind1 with presentation_family := some i } : QueueFamilyIndices) else ind1) = ind2
    have hgr : ∀ g, ind2.graphics_family = some g → indices.graphics_family = some g ∨
        (i = g ∧ f.queueCount > 0 ∧ f.queueFlags &&& VK_QUEUE_GRAPHICS_BIT ≠ 0) := by
      intro g h
      subst hind2 hind1
      split_ifs at h with h1 h2 h2 <;> simp_all
    have hpr : ∀ g, ind2.presentation_family = some g →
        indices.presentation_family = some g ∨
        (i = g ∧ f.queueCount > 0 ∧ device.presentation_support i ≠ 0) := by
      intro g h
      subst hind2 hind1
      split_ifs at h with h1 h2 h2 <;> simp_all
    refine ⟨fun g h => ?_, fun g h => ?_⟩
    · split_ifs at h with hc
      · rcases hgr g h with h1 | h1
        · exact Or.inl h1
        · exact Or.inr (Or.inl h1)
      · rcases (ih (i + 1) ind2).1 g h with h1 | h1
        · rcases hgr g h1 with h2 | h2
          · exact Or.inl h2
          · exact Or.inr (Or.inl h2)
        · exact Or.inr (Or.inr h1)
    · split_ifs at h with hc
      · rcases hpr g h with h1 | h1
        · exact Or.inl h1
        · exact Or.inr (Or.inl h1)
      · rcases (ih (i + 1) ind2).2 g h with h1 | h1
        · rcases hpr g h1 with h2 | h2
          · exact Or.inl h2
          · exact Or.inr (Or.inl h2)
        · exact Or.inr (Or.inr h1)

/-- Membership in the indexed family list, read as a lookup by index. -/
theorem mem_enumFrom_zero_iff (l : List VkQueueFamilyProperties)
    (p : Nat × VkQueueFamilyProperties) : p ∈ l.enumFrom 0 ↔ l[p.1]? = some p.2 :=
  List.mem_enum_iff_getElem?

/-- C12: the index pair `GetQueueFamilies` returns is complete exactly when the
family list has a family with `queueCount > 0` and the graphics bit and a
family with `queueCount > 0` that supports presentation; and a populated slot
holds a valid index of the list, naming a family with `queueCount > 0` and the
capability of that slot. -/
theorem GetQueueFamilies_complete_iff (device : VkPhysicalDevice) :
    ((GetQueueFamilies device).IsComplete = true ↔
      (∃ (i : Nat) (family : VkQueueFamilyProperties), device.queue_family_list[i]? = some family ∧
        family.queueCount > 0 ∧ family.queueFlags &&& VK_QUEUE_GRAPHICS_BIT ≠ 0) ∧
      (∃ (i : Nat) (family : VkQueueFamilyProperties), device.queue_family_list[i]? = some family ∧
        family.queueCount > 0 ∧ device.presentation_support i ≠ 0)) ∧
    (∀ g, (GetQueueFamilies device).graphics_family = some g →
      g < device.queue_family_list.length ∧
      ∃ family : VkQueueFamilyProperties, device.queue_family_list[g]? = some family ∧
        family.queueCount > 0 ∧ family.queueFlags &&& VK_QUEUE_GRAPHICS_BIT ≠ 0) ∧
    (∀ p, (GetQueueFamilies device).presentation_family = some p →
      p < device.queue_family_list.length ∧
      ∃ family : VkQueueFamilyProperties, device.queue_family_list[p]? = some family ∧
        family.queueCount > 0 ∧ device.presentation_support p ≠ 0) := by
  unfold GetQueueFamilies
  refine ⟨?_, ?_, ?_⟩
  · rw [GetQueueFamilies_loop_complete]
    simp only [Option.isSome_none, Bool.false_eq_true, false_or]
    constructor
    · rintro ⟨⟨p, hp, h1⟩, ⟨q, hq, h2⟩⟩
      exact ⟨⟨p.1, p.2, (mem_enumFrom_zero_iff _ p).mp hp, h1⟩,
        ⟨q.1, q.2, (mem_enumFrom_zero_iff _ q).mp hq, h2⟩⟩
    · rintro ⟨⟨i, f, hf, h1⟩, ⟨j, g, hg, h2⟩⟩
      exact ⟨⟨(i, f), (mem_enumFrom_zero_iff _ (i, f)).mpr hf, h1⟩,
        ⟨(j, g), (mem_enumFrom_zero_iff _ (j, g)).mpr hg, h2⟩⟩
  · intro g h
    rcases (GetQueueFamilies_loop_slots device _ 0 ⟨none, none⟩).1 g h with h1 | ⟨p, hp, rfl, h2⟩
    · cases h1
    · have hget := (mem_enumFrom_zero_iff _ p).mp hp
      exact ⟨(List.getElem?_eq_some.mp hget).1, p.2, hget, h2⟩
  · intro g h
    rcases (GetQueueFamilies_loop_slots device _ 0 ⟨none, none⟩).2 g h with h1 | ⟨p, hp, rfl, h2⟩
    · cases h1
    · have hget := (mem_enumFrom_zero_iff _ p).mp hp
      exact ⟨(List.getElem?_eq_some.mp hget).1, p.2, hget, h2⟩

/-! ## Device extensions -/

/-- The inner loop of `CheckDeviceExtensionSupport` finds a name exactly when
the name is in the list. -/
theorem has_extension_iff_mem (device_extension : String) (extensions : List String) :
    CheckDeviceExtensionSupport.has_extension device_extension extensions = true ↔
      device_extension ∈ extensions := by
  induction extensions with
  | nil => simp [CheckDeviceExtensionSupport.has_extension]
  | cons e rest ih =>
    unfold CheckDeviceExtensionSupport.has_extension
    by_cases h : device_extension = e
    · simp [h]
    · simp [h, ih]

/-- The outer loop of `CheckDeviceExtensionSupport` succeeds exactly when every
required name is in the list. -/
theorem extension_loop_iff_all_mem (extensions required : List String) :
    CheckDeviceExtensionSupport.loop extensions required = true ↔
      ∀ name ∈ required, name ∈ extensions := by
  induction required with
  | nil => simp [CheckDeviceExtensionSupport.loop]
  | cons r rest ih =>
    unfold CheckDeviceExtensionSupport.loop
    by_cases h : CheckDeviceExtensionSupport.has_extension r extensions = true
    · have hm := (has_extension_iff_mem r extensions).mp h
      simp [h, ih, hm]
    · have hm : r ∉ extensions := fun hm => h ((has_extension_iff_mem r extensions).mpr hm)
      simp [h, hm]

/-- C13: `CheckDeviceExtensionSupport` returns true exactly when every name of
the required device-extension list is, as a string, among the extension names
the device enumerates; a device that enumerates no extension is rejected. -/
theorem CheckDeviceExtensionSupport_iff (device : VkPhysicalDevice) :
    (CheckDeviceExtensionSupport device = true ↔
      ∀ name ∈ device_extensions, name ∈ device.extensions) ∧
    (device.extensions = [] → CheckDeviceExtensionSupport device = false) := by
  unfold CheckDeviceExtensionSupport
  constructor
  · by_cases h : device.extensions.length = 0
    · have hnil : device.extensions = [] := List.length_eq_zero.mp h
      simp [hnil, device_extensions]
    · simp only [h, if_false]
      exact extension_loop_iff_all_mem _ _
  · intro h
    simp [h]

/-! ## Format preference, missing suitable device, image count bounds -/

/-- C14, evaluated at the failing input: on a list holding a BGRA entry before
an RGBA entry, both in the sRGB nonlinear colour space, the function returns
the BGRA entry, although the list has an RGBA one. -/
theorem ChooseBestSurfaceFormat_bgra_before_rgba :
    ChooseBestSurfaceFormat
        [⟨VK_FORMAT_B8G8R8A8_UNORM, VK_COLOR_SPACE_SRGB_NONLINEAR_KHR⟩,
         ⟨VK_FORMAT_R8G8B8A8_UNORM, VK_COLOR_SPACE_SRGB_NONLINEAR_KHR⟩] =
      some ⟨VK_FORMAT_B8G8R8A8_UNORM, VK_COLOR_SPACE_SRGB_NONLINEAR_KHR⟩ ∧
    (⟨VK_FORMAT_R8G8B8A8_UNORM, VK_COLOR_SPACE_SRGB_NONLINEAR_KHR⟩ : VkSurfaceFormatKHR) ∈
      [(⟨VK_FORMAT_B8G8R8A8_UNORM, VK_COLOR_SPACE_SRGB_NONLINEAR_KHR⟩ : VkSurfaceFormatKHR),
       ⟨VK_FORMAT_R8G8B8A8_UNORM, VK_COLOR_SPACE_SRGB_NONLINEAR_KHR⟩] ∧
    VK_FORMAT_B8G8R8A8_UNORM ≠ VK_FORMAT_R8G8B8A8_UNORM := by
  decide

/-- The scan of `GetPhysicalDevice` over unsuitable devices assigns nothing. -/
theorem GetPhysicalDevice_loop_none_suitable (device_list : List VkPhysicalDevice)
    (physical_device : Option VkPhysicalDevice)
    (hnone : ∀ d ∈ device_list, CheckDeviceSuitable d = false) :
    GetPhysicalDevice.loop device_list physical_device = physical_device := by
  induction device_list with
  | nil => rfl
  | cons device rest ih =>
    have hd : CheckDeviceSuitable device = false := hnone device (by simp)
    simp only [GetPhysicalDevice.loop, hd]
    exact ih (fun d h => hnone d (List.mem_cons_of_mem _ h))

/-- C15: `GetPhysicalDevice` raises an error exactly when the enumerated
device list is empty; on a non-empty list in which no device is suitable it
returns normally and leaves the stored physical-device handle as it was. -/
theorem GetPhysicalDevice_error_iff_empty (device_list : List VkPhysicalDevice)
    (physical_device : Option VkPhysicalDevice) :
    ((∃ what, GetPhysicalDevice device_list physical_device = .error what) ↔
      device_list = []) ∧
    (device_list ≠ [] → (∀ d ∈ device_list, CheckDeviceSuitable d = false) →
      GetPhysicalDevice device_list physical_device = .ok physical_device) := by
  constructor
  · cases device_list with
    | nil => simp [GetPhysicalDevice]
    | cons d rest => simp [GetPhysicalDevice]
  · intro hne hnone
    have hlen : device_list.length ≠ 0 := fun h => hne (List.length_eq_zero.mp h)
    simp [GetPhysicalDevice, hlen, GetPhysicalDevice_loop_none_suitable _ _ hnone]

/-- C16: when `minImageCount < 2^32 - 1` and `maxImageCount` is 0 or at least
`minImageCount`, the image count `CreateSwapChain` requests is at least
`minImageCount`, and at most `maxImageCount` when `maxImageCount` is nonzero. -/
theorem CreateSwapChain_image_count_bounds (surface_capabilities : VkSurfaceCapabilitiesKHR)
    (hmin : surface_capabilities.minImageCount < 2 ^ 32 - 1)
    (hmax : surface_capabilities.maxImageCount = 0 ∨
      surface_capabilities.minImageCount ≤ surface_capabilities.maxImageCount) :
    surface_capabilities.minImageCount ≤ CreateSwapChain.image_count surface_capabilities ∧
    (surface_capabilities.maxImageCount ≠ 0 →
      CreateSwapChain.image_count surface_capabilities ≤
        surface_capabilities.maxImageCount) := by
  unfold CreateSwapChain.image_count
  have hmod : (surface_capabilities.minImageCount + 1) % 4294967296 =
      surface_capabilities.minImageCount + 1 := Nat.mod_eq_of_lt (by omega)
  simp only [hmod]
  split_ifs with h
  · constructor
    · omega
    · intro _; exact Nat.le_refl _
  · constructor
    · omega
    · intro hne; omega

/-- Witness of C16: a minimum of 2 and a maximum of 2 give a count of 2. -/
theorem CreateSwapChain_image_count_bounds_witness :
    2 ≤ CreateSwapChain.image_count
      { minImageCount := 2, maxImageCount := 2, currentExtent := ⟨800, 600⟩,
        minImageExtent := ⟨1, 1⟩, maxImageExtent := ⟨4096, 4096⟩ } ∧
    ((2 : Nat) ≠ 0 → CreateSwapChain.image_count
      { minImageCount := 2, maxImageCount := 2, currentExtent := ⟨800, 600⟩,
        minImageExtent := ⟨1, 1⟩, maxImageExtent := ⟨4096, 4096⟩ } ≤ 2) :=
  CreateSwapChain_image_count_bounds
    { minImageCount := 2, maxImageCount := 2, currentExtent := ⟨800, 600⟩,
      minImageExtent := ⟨1, 1⟩, maxImageExtent := ⟨4096, 4096⟩ } (by decide) (Or.inr (by decide))

end VulkanApp
